import Mathlib

set_option autoImplicit false

/-!
Shallow embedding of `src/Atom_Log/AtomLog.cpp` (AtomLog): a process-local
leveled logger.  The C++ `LogLevel` enum has underlying integer values
DEBUG=0, INFO=1, WARN=2, ERROR=3; since the logger's lookup tables must
also handle values outside the enum (they fall back to "UNKNOWN" / the
default color), levels are embedded as `Int`.

The logger's observable behaviour is a list of writes, each a pair of the
destination stream and the exact byte string written (`std::endl` appends
a newline).  The wall-clock reading made inside `log` (the broken-down
local time `bt` from `localtime_r` and the milliseconds-since-epoch count
used for the `.mmm` part) is passed as explicit parameters.
-/

/-- Destination of a write: `std::cout` or `std::cerr`. -/
inductive OutStream where
  | stdout : OutStream
  | stderr : OutStream
deriving DecidableEq

/-- Broken-down local time, the fields of `std::tm` that the format string
`"%Y-%m-%d %H:%M:%S"` reads.  `localtime` fills them with the usual
nonnegative ranges (`tm_year` is years since 1900). -/
structure Tm where
  tm_sec : Nat
  tm_min : Nat
  tm_hour : Nat
  tm_mday : Nat
  tm_mon : Nat
  tm_year : Nat
deriving DecidableEq

/-- The decimal digits of `n`, most significant first, as characters
(the rendering `operator<<` performs on a nonnegative integer).
`fuel` bounds the recursion depth; it is always called with enough fuel. -/
def natDigitsAux (fuel : Nat) (n : Nat) : List Char :=
  match fuel with
  | 0 => []
  | fuel + 1 =>
    if n < 10 then [Nat.digitChar n]
    else natDigitsAux fuel (n / 10) ++ [Nat.digitChar (n % 10)]

/-- Decimal digit characters of `n`, most significant first. -/
def natDigits (n : Nat) : List Char := natDigitsAux (n + 1) n

/-- Decimal rendering of a `Nat`. -/
def natStr (n : Nat) : String := String.mk (natDigits n)

/-- Decimal rendering of an `Int` (as `operator<<` prints an `int`). -/
def intStr (i : Int) : String :=
  if i < 0 then "-" ++ natStr i.natAbs else natStr i.toNat

/-- Left-pad `s` with `'0'` to width `w`, as
`stream << std::setfill('0') << std::setw(w)` does for a nonnegative
number already rendered as `s`. -/
def padZero (w : Nat) (s : String) : String :=
  String.mk (List.replicate (w - s.data.length) '0') ++ s

/-- `std::put_time(&bt, "%Y-%m-%d %H:%M:%S")`: year unpadded decimal,
the other five fields zero-padded to two digits. -/
def formatTm (bt : Tm) : String :=
  natStr (bt.tm_year + 1900) ++ "-" ++ padZero 2 (natStr (bt.tm_mon + 1)) ++ "-" ++
    padZero 2 (natStr bt.tm_mday) ++ " " ++ padZero 2 (natStr bt.tm_hour) ++ ":" ++
    padZero 2 (natStr bt.tm_min) ++ ":" ++ padZero 2 (natStr bt.tm_sec)

/-- The timestamp written at the head of every emitted line:
`put_time` output, then `'.'`, then the millisecond remainder zero-padded
to three digits (`ms = duration_cast<milliseconds>(...) % 1000`).
`nowMs` is the milliseconds-since-epoch count at call time. -/
def timestampStr (bt : Tm) (nowMs : Nat) : String :=
  formatTm bt ++ "." ++ padZero 3 (natStr (nowMs % 1000))

/-- The logger's state: the atomic current level and the two lookup
tables populated by the private constructor (`std::unordered_map`
embedded as an association list; all keys are distinct, so lookup order
is immaterial). -/
structure Logger where
  log_level_ : Int
  level_strings_ : List (Int × String)
  colors_ : List (Int × String)

/-- `unordered_map::find`: first binding of `level`, if any. -/
def findLevel (m : List (Int × String)) (level : Int) : Option String :=
  match m with
  | [] => none
  | (k, v) :: rest => if level = k then some v else findLevel rest level

namespace Logger

/-- The singleton's initial state: threshold `INFO` (= 1) and the two
tables in the insertion order of the constructor. -/
def init : Logger :=
  { log_level_ := 1
  , level_strings_ := [(1, "INFO"), (2, "WARN"), (3, "ERROR"), (0, "DEBUG")]
  , colors_ := [(1, "\x1b[0m"), (0, "\x1b[36m"), (2, "\x1b[33m"), (3, "\x1b[31m")] }

/-- `Logger::set_log_level`: store the new threshold. -/
def set_log_level (lg : Logger) (level : Int) : Logger :=
  { lg with log_level_ := level }

/-- `Logger::level_to_string`: map lookup with fallback `"UNKNOWN"`. -/
def level_to_string (lg : Logger) (level : Int) : String :=
  (findLevel lg.level_strings_ level).getD "UNKNOWN"

/-- `Logger::level_to_color`: map lookup with fallback `"\x1b[0m"`. -/
def level_to_color (lg : Logger) (level : Int) : String :=
  (findLevel lg.colors_ level).getD "\x1b[0m"

/-- Lines 62–78 of the source: the `ostringstream` contents — timestamp,
bracketed level label, the message, and, when `level >= WARN && file &&
line > 0`, the ` [at file:line]` suffix.  `file = none` is the `nullptr`
default. -/
def assembleBody (lg : Logger) (level : Int) (message : String)
    (file : Option String) (line : Int) (bt : Tm) (nowMs : Nat) : String :=
  let base := timestampStr bt nowMs ++ " [" ++ lg.level_to_string level ++ "] " ++ message
  match file with
  | some f =>
    if 2 ≤ level ∧ 0 < line then base ++ " [at " ++ f ++ ":" ++ intStr line ++ "]"
    else base
  | none => base

/-- `Logger::log`.  Returns the logger state after the call (the method
performs no store, only a load of `log_level_`) together with the list of
writes it made.  A suppressed call writes nothing; an emitted call makes
one write: to `stderr` wrapped in the level color and `"\x1b[0m"` when
`level >= WARN`, else to `stdout` uncolored.  `std::endl` is the final
`"\n"`. -/
def log (lg : Logger) (level : Int) (message : String)
    (file : Option String) (line : Int) (bt : Tm) (nowMs : Nat) :
    Logger × List (OutStream × String) :=
  if level < lg.log_level_ then (lg, [])
  else
    let body := assembleBody lg level message file line bt nowMs
    if 2 ≤ level then
      (lg, [(OutStream.stderr, lg.level_to_color level ++ body ++ "\x1b[0m" ++ "\n")])
    else
      (lg, [(OutStream.stdout, body ++ "\n")])

end Logger

/-- `LOG_DEBUG(msg)`: level DEBUG, no source location. -/
def LOG_DEBUG (msg : String) (lg : Logger) (bt : Tm) (nowMs : Nat) :
    Logger × List (OutStream × String) :=
  lg.log 0 msg none 0 bt nowMs

/-- `LOG_INFO(msg)`: level INFO, no source location. -/
def LOG_INFO (msg : String) (lg : Logger) (bt : Tm) (nowMs : Nat) :
    Logger × List (OutStream × String) :=
  lg.log 1 msg none 0 bt nowMs

/-- `LOG_WARN(msg)`: level WARN with `__FILE__`/`__LINE__`. -/
def LOG_WARN (msg : String) (callFile : String) (callLine : Int)
    (lg : Logger) (bt : Tm) (nowMs : Nat) : Logger × List (OutStream × String) :=
  lg.log 2 msg (some callFile) callLine bt nowMs

/-- `LOG_ERROR(msg)`: level ERROR with `__FILE__`/`__LINE__`. -/
def LOG_ERROR (msg : String) (callFile : String) (callLine : Int)
    (lg : Logger) (bt : Tm) (nowMs : Nat) : Logger × List (OutStream × String) :=
  lg.log 3 msg (some callFile) callLine bt nowMs

/-- `LOG_CUSTOM(level, msg)`: any level, no source location. -/
def LOG_CUSTOM (level : Int) (msg : String) (lg : Logger) (bt : Tm) (nowMs : Nat) :
    Logger × List (OutStream × String) :=
  lg.log level msg none 0 bt nowMs

/-- `LOG_CRITICAL(msg)`: level ERROR, the message prefixed with the
bold-red `CRITICAL:` marker and its own reset, with `__FILE__`/`__LINE__`. -/
def LOG_CRITICAL (msg : String) (callFile : String) (callLine : Int)
    (lg : Logger) (bt : Tm) (nowMs : Nat) : Logger × List (OutStream × String) :=
  lg.log 3 ("\x1b[1;31mCRITICAL:\x1b[0m " ++ msg) (some callFile) callLine bt nowMs

/-- `LOG_IF(condition, level, msg)`: call `log` exactly when `condition`
holds; otherwise do nothing. -/
def LOG_IF (condition : Bool) (level : Int) (msg : String)
    (lg : Logger) (bt : Tm) (nowMs : Nat) : Logger × List (OutStream × String) :=
  if condition then lg.log level msg none 0 bt nowMs else (lg, [])

/-- Any state the program can reach: the constructor's tables with some
threshold (only `set_log_level` ever writes state, and it writes only
`log_level_`). -/
def loggerAt (t : Int) : Logger := { Logger.init with log_level_ := t }

/-- `t` occurs as a contiguous substring of `s`. -/
def HasSubstr (s t : String) : Prop := ∃ a b, s = a ++ t ++ b

/-- `s` contains no ESC (0x1b) character, hence no ANSI escape sequence. -/
def escFree (s : String) : Prop := '\x1b' ∉ s.data

instance (s : String) : Decidable (escFree s) :=
  inferInstanceAs (Decidable ('\x1b' ∉ s.data))

/-- Character-shape matcher: `'D'` in the pattern demands a decimal digit,
any other pattern character demands itself; lengths must agree. -/
def matchShape : List Char → List Char → Bool
  | [], [] => true
  | p :: ps, c :: cs => (if p = 'D' then c.isDigit else c = p) && matchShape ps cs
  | _, _ => false

/-- The `YYYY-MM-DD HH:MM:SS.mmm` shape of an emitted timestamp. -/
def tsShape (s : String) : Bool :=
  matchShape "DDDD-DD-DD DD:DD:DD.DDD".data s.data

/-- A concrete broken-down time (2025-09-03 14:05:07) used to exercise
the theorems on explicit inputs. -/
def sampleTm : Tm :=
  { tm_sec := 7, tm_min := 5, tm_hour := 14, tm_mday := 3, tm_mon := 8, tm_year := 125 }

/-- Trivial substring-witness packaging used throughout the proofs. -/
theorem hasSubstr_intro (s a t b : String) (h : s = a ++ t ++ b) : HasSubstr s t := ⟨a, b, h⟩

/-! ### Helper lemmas: decimal digit strings -/

theorem natDigitsAux_irrel : ∀ (n f1 f2 : Nat), n < f1 → n < f2 →
    natDigitsAux f1 n = natDigitsAux f2 n := by
  intro n
  induction n using Nat.strong_induction_on with
  | _ n ih =>
    intro f1 f2 h1 h2
    match f1, f2 with
    | a + 1, b + 1 =>
      by_cases h : n < 10
      · simp [natDigitsAux, h]
      · have hd : n / 10 < n := Nat.div_lt_self (by omega) (by omega)
        simp only [natDigitsAux, h, if_false]
        rw [ih (n / 10) hd a b (by omega) (by omega)]

theorem natDigits_lt10 (n : Nat) (h : n < 10) : natDigits n = [Nat.digitChar n] := by
  simp [natDigits, natDigitsAux, h]

theorem natDigits_ge10 (n : Nat) (h : 10 ≤ n) :
    natDigits n = natDigits (n / 10) ++ [Nat.digitChar (n % 10)] := by
  have hlt : ¬ n < 10 := by omega
  have hd : n / 10 < n := Nat.div_lt_self (by omega) (by omega)
  unfold natDigits
  rw [show natDigitsAux (n + 1) n = natDigitsAux n (n / 10) ++ [Nat.digitChar (n % 10)] by
        simp [natDigitsAux, hlt]]
  rw [natDigitsAux_irrel (n / 10) n (n / 10 + 1) hd (by omega)]

theorem digitChar_isDigit (m : Nat) (h : m < 10) : (Nat.digitChar m).isDigit = true := by
  interval_cases m <;> decide

theorem natDigits_all_digit : ∀ n : Nat, ∀ c ∈ natDigits n, c.isDigit = true := by
  intro n
  induction n using Nat.strong_induction_on with
  | _ n ih =>
    by_cases h : n < 10
    · rw [natDigits_lt10 n h]
      intro c hc
      simp at hc
      subst hc
      exact digitChar_isDigit n h
    · rw [natDigits_ge10 n (by omega)]
      intro c hc
      rcases List.mem_append.1 hc with hc | hc
      · exact ih (n / 10) (Nat.div_lt_self (by omega) (by omega)) c hc
      · simp at hc
        subst hc
        exact digitChar_isDigit (n % 10) (Nat.mod_lt _ (by omega))

theorem natDigits_len1 (n : Nat) (h : n < 10) : (natDigits n).length = 1 := by
  rw [natDigits_lt10 n h]
  rfl

theorem natDigits_len2 (n : Nat) (h1 : 10 ≤ n) (h2 : n < 100) : (natDigits n).length = 2 := by
  rw [natDigits_ge10 n h1, List.length_append, natDigits_len1 (n / 10) (by omega)]
  rfl

theorem natDigits_len3 (n : Nat) (h1 : 100 ≤ n) (h2 : n < 1000) : (natDigits n).length = 3 := by
  rw [natDigits_ge10 n (by omega), List.length_append,
    natDigits_len2 (n / 10) (by omega) (by omega)]
  rfl

theorem natDigits_len4 (n : Nat) (h1 : 1000 ≤ n) (h2 : n < 10000) : (natDigits n).length = 4 := by
  rw [natDigits_ge10 n (by omega), List.length_append,
    natDigits_len3 (n / 10) (by omega) (by omega)]
  rfl

theorem natStr_data (n : Nat) : (natStr n).data = natDigits n := rfl

theorem natStr_len_le2 (n : Nat) (h : n < 100) : (natStr n).data.length ≤ 2 := by
  rw [natStr_data]
  by_cases h1 : n < 10
  · rw [natDigits_len1 n h1]
    omega
  · rw [natDigits_len2 n (by omega) h]

theorem natStr_len_le3 (n : Nat) (h : n < 1000) : (natStr n).data.length ≤ 3 := by
  rw [natStr_data]
  by_cases h1 : n < 100
  · calc (natDigits n).length ≤ 2 := by rw [← natStr_data]; exact natStr_len_le2 n h1
    _ ≤ 3 := by omega
  · rw [natDigits_len3 n (by omega) h]

theorem padZero_data (w : Nat) (s : String) :
    (padZero w s).data = List.replicate (w - s.data.length) '0' ++ s.data := by
  simp [padZero, String.data_append]

theorem padZero_length (w : Nat) (s : String) (h : s.data.length ≤ w) :
    (padZero w s).data.length = w := by
  rw [padZero_data, List.length_append, List.length_replicate]
  omega

theorem padZero_all_digit (w : Nat) (s : String) (hs : ∀ c ∈ s.data, c.isDigit = true) :
    ∀ c ∈ (padZero w s).data, c.isDigit = true := by
  rw [padZero_data]
  intro c hc
  rcases List.mem_append.1 hc with hc | hc
  · rw [List.eq_of_mem_replicate hc]
    decide
  · exact hs c hc

/-! ### Helper lemmas: escape-freeness -/

theorem escFree_append (a b : String) : escFree (a ++ b) ↔ escFree a ∧ escFree b := by
  simp [escFree, String.data_append, List.mem_append, not_or]

theorem escFree_of_digits (s : String) (h : ∀ c ∈ s.data, c.isDigit = true) : escFree s := by
  intro hm
  exact absurd (h _ hm) (by decide)

theorem escFree_natStr (n : Nat) : escFree (natStr n) :=
  escFree_of_digits _ (by rw [natStr_data]; exact natDigits_all_digit n)

theorem escFree_padZero_natStr (w n : Nat) : escFree (padZero w (natStr n)) :=
  escFree_of_digits _
    (padZero_all_digit w _ (by rw [natStr_data]; exact natDigits_all_digit n))

theorem escFree_timestampStr (bt : Tm) (ms : Nat) : escFree (timestampStr bt ms) := by
  simp only [timestampStr, formatTm, escFree_append]
  repeat' apply And.intro
  all_goals first
    | exact escFree_natStr _
    | exact escFree_padZero_natStr _ _
    | decide

/-! ### Helper lemmas: timestamp shape -/

theorem matchShape_dig_seg : ∀ (ds p cs : List Char), (∀ c ∈ ds, c.isDigit = true) →
    matchShape (List.replicate ds.length 'D' ++ p) (ds ++ cs) = matchShape p cs := by
  intro ds
  induction ds with
  | nil => intro p cs _; rfl
  | cons d ds ih =>
    intro p cs h
    simp only [List.length_cons, List.replicate_succ, List.cons_append]
    simp only [matchShape, if_pos rfl]
    rw [h d (by simp)]
    simp [ih p cs (fun c hc => h c (by simp [hc]))]

theorem matchShape_dig_seg' (k : Nat) (ds p cs : List Char) (hk : ds.length = k)
    (h : ∀ c ∈ ds, c.isDigit = true) :
    matchShape (List.replicate k 'D' ++ p) (ds ++ cs) = matchShape p cs := by
  subst hk
  exact matchShape_dig_seg ds p cs h

theorem matchShape_cons_lit (x : Char) (hx : ¬ x = 'D') (p c : List Char) :
    matchShape (x :: p) (x :: c) = matchShape p c := by
  simp [matchShape, hx]

theorem matchShape_dig_all (k : Nat) (ds : List Char) (hk : ds.length = k)
    (h : ∀ c ∈ ds, c.isDigit = true) :
    matchShape (List.replicate k 'D') ds = true := by
  subst hk
  have hfin := matchShape_dig_seg ds [] [] h
  simpa using hfin

theorem tsShape_parts (y mo d h mi s ms : List Char)
    (hy : y.length = 4) (hyd : ∀ c ∈ y, c.isDigit = true)
    (hmo : mo.length = 2) (hmod : ∀ c ∈ mo, c.isDigit = true)
    (hd : d.length = 2) (hdd : ∀ c ∈ d, c.isDigit = true)
    (hh : h.length = 2) (hhd : ∀ c ∈ h, c.isDigit = true)
    (hmi : mi.length = 2) (hmid : ∀ c ∈ mi, c.isDigit = true)
    (hs : s.length = 2) (hsd : ∀ c ∈ s, c.isDigit = true)
    (hms : ms.length = 3) (hmsd : ∀ c ∈ ms, c.isDigit = true) :
    matchShape "DDDD-DD-DD DD:DD:DD.DDD".data
      (y ++ '-' :: (mo ++ '-' :: (d ++ ' ' :: (h ++ ':' :: (mi ++ ':' :: (s ++ '.' :: ms)))))) =
      true := by
  have hpat : "DDDD-DD-DD DD:DD:DD.DDD".data =
      List.replicate 4 'D' ++ '-' :: (List.replicate 2 'D' ++ '-' :: (List.replicate 2 'D' ++
        ' ' :: (List.replicate 2 'D' ++ ':' :: (List.replicate 2 'D' ++ ':' ::
        (List.replicate 2 'D' ++ '.' :: List.replicate 3 'D'))))) := by decide
  rw [hpat,
    matchShape_dig_seg' 4 y _ _ hy hyd, matchShape_cons_lit '-' (by decide) _ _,
    matchShape_dig_seg' 2 mo _ _ hmo hmod, matchShape_cons_lit '-' (by decide) _ _,
    matchShape_dig_seg' 2 d _ _ hd hdd, matchShape_cons_lit ' ' (by decide) _ _,
    matchShape_dig_seg' 2 h _ _ hh hhd, matchShape_cons_lit ':' (by decide) _ _,
    matchShape_dig_seg' 2 mi _ _ hmi hmid, matchShape_cons_lit ':' (by decide) _ _,
    matchShape_dig_seg' 2 s _ _ hs hsd, matchShape_cons_lit '.' (by decide) _ _]
  exact matchShape_dig_all 3 ms hms hmsd

theorem dash_data : ("-" : String).data = ['-'] := rfl

theorem colon_data : (":" : String).data = [':'] := rfl

theorem space_data : (" " : String).data = [' '] := rfl

theorem dot_data : ("." : String).data = ['.'] := rfl

theorem timestampStr_data (bt : Tm) (nowMs : Nat) :
    (timestampStr bt nowMs).data =
      natDigits (bt.tm_year + 1900) ++ '-' :: ((padZero 2 (natStr (bt.tm_mon + 1))).data ++
        '-' :: ((padZero 2 (natStr bt.tm_mday)).data ++ ' ' ::
        ((padZero 2 (natStr bt.tm_hour)).data ++ ':' ::
        ((padZero 2 (natStr bt.tm_min)).data ++ ':' ::
        ((padZero 2 (natStr bt.tm_sec)).data ++ '.' ::
        (padZero 3 (natStr (nowMs % 1000))).data))))) := by
  simp only [timestampStr, formatTm, String.data_append, List.append_assoc, natStr_data,
    dash_data, colon_data, space_data, dot_data, List.singleton_append, List.cons_append,
    List.nil_append]

theorem tsShape_timestampStr (bt : Tm) (nowMs : Nat)
    (hy1 : 1000 ≤ bt.tm_year + 1900) (hy2 : bt.tm_year + 1900 < 10000)
    (hmo : bt.tm_mon + 1 < 100) (hd : bt.tm_mday < 100) (hh : bt.tm_hour < 100)
    (hmi : bt.tm_min < 100) (hsec : bt.tm_sec < 100) :
    tsShape (timestampStr bt nowMs) = true := by
  unfold tsShape
  rw [timestampStr_data]
  have hdig : ∀ n : Nat, ∀ c ∈ (padZero 2 (natStr n)).data, c.isDigit = true := fun n =>
    padZero_all_digit 2 _ (by rw [natStr_data]; exact natDigits_all_digit n)
  exact tsShape_parts _ _ _ _ _ _ _
    (natDigits_len4 _ hy1 hy2) (natDigits_all_digit _)
    (padZero_length 2 _ (natStr_len_le2 _ hmo)) (hdig _)
    (padZero_length 2 _ (natStr_len_le2 _ hd)) (hdig _)
    (padZero_length 2 _ (natStr_len_le2 _ hh)) (hdig _)
    (padZero_length 2 _ (natStr_len_le2 _ hmi)) (hdig _)
    (padZero_length 2 _ (natStr_len_le2 _ hsec)) (hdig _)
    (padZero_length 3 _ (natStr_len_le3 _ (Nat.mod_lt _ (by omega))))
    (padZero_all_digit 3 _ (by rw [natStr_data]; exact natDigits_all_digit _))

/-! ### Helper lemmas: the logger's operations -/

theorem log_suppressed (lg : Logger) (level : Int) (msg : String) (file : Option String)
    (line : Int) (bt : Tm) (ms : Nat) (h : level < lg.log_level_) :
    lg.log level msg file line bt ms = (lg, []) := by
  simp [Logger.log, h]

theorem log_emit_hi (lg : Logger) (level : Int) (msg : String) (file : Option String)
    (line : Int) (bt : Tm) (ms : Nat) (hT : lg.log_level_ ≤ level) (h2 : 2 ≤ level) :
    lg.log level msg file line bt ms =
      (lg, [(OutStream.stderr, lg.level_to_color level ++
        Logger.assembleBody lg level msg file line bt ms ++ "\x1b[0m" ++ "\n")]) := by
  have h : ¬ level < lg.log_level_ := not_lt.2 hT
  simp [Logger.log, h, h2]

theorem log_emit_lo (lg : Logger) (level : Int) (msg : String) (file : Option String)
    (line : Int) (bt : Tm) (ms : Nat) (hT : lg.log_level_ ≤ level) (h2 : level < 2) :
    lg.log level msg file line bt ms =
      (lg, [(OutStream.stdout, Logger.assembleBody lg level msg file line bt ms ++ "\n")]) := by
  have h : ¬ level < lg.log_level_ := not_lt.2 hT
  have h2' : ¬ (2 ≤ level) := not_le.2 h2
  simp [Logger.log, h, h2']

theorem log_state (lg : Logger) (level : Int) (msg : String) (file : Option String)
    (line : Int) (bt : Tm) (ms : Nat) :
    (lg.log level msg file line bt ms).1 = lg := by
  unfold Logger.log
  split_ifs <;> rfl

theorem assembleBody_none (lg : Logger) (level : Int) (msg : String)
    (line : Int) (bt : Tm) (ms : Nat) :
    Logger.assembleBody lg level msg none line bt ms =
      timestampStr bt ms ++ " [" ++ lg.level_to_string level ++ "] " ++ msg := rfl

theorem assembleBody_some_pos (lg : Logger) (level : Int) (msg f : String)
    (line : Int) (bt : Tm) (ms : Nat) (h2 : 2 ≤ level) (hl : 0 < line) :
    Logger.assembleBody lg level msg (some f) line bt ms =
      timestampStr bt ms ++ " [" ++ lg.level_to_string level ++ "] " ++ msg ++
        " [at " ++ f ++ ":" ++ intStr line ++ "]" := by
  simp [Logger.assembleBody, h2, hl]

theorem assembleBody_some_neg (lg : Logger) (level : Int) (msg f : String)
    (line : Int) (bt : Tm) (ms : Nat) (h : ¬ (2 ≤ level ∧ 0 < line)) :
    Logger.assembleBody lg level msg (some f) line bt ms =
      timestampStr bt ms ++ " [" ++ lg.level_to_string level ++ "] " ++ msg := by
  simp only [Logger.assembleBody, if_neg h]

theorem assembleBody_not_warn (lg : Logger) (level : Int) (msg : String)
    (file : Option String) (line : Int) (bt : Tm) (ms : Nat) (h : ¬ 2 ≤ level) :
    Logger.assembleBody lg level msg file line bt ms =
      timestampStr bt ms ++ " [" ++ lg.level_to_string level ++ "] " ++ msg := by
  cases file with
  | none => exact assembleBody_none lg level msg line bt ms
  | some f => exact assembleBody_some_neg lg level msg f line bt ms (fun hc => h hc.1)

theorem assembleBody_decomp (lg : Logger) (level : Int) (msg : String)
    (file : Option String) (line : Int) (bt : Tm) (ms : Nat) :
    ∃ suf, Logger.assembleBody lg level msg file line bt ms =
      timestampStr bt ms ++ " [" ++ lg.level_to_string level ++ "] " ++ msg ++ suf ∧
      (suf = "" ∨ ∃ f, file = some f ∧ 2 ≤ level ∧ 0 < line ∧
        suf = " [at " ++ f ++ ":" ++ intStr line ++ "]") := by
  cases file with
  | none =>
    exact ⟨"", by rw [assembleBody_none, String.append_empty], Or.inl rfl⟩
  | some f =>
    by_cases h : 2 ≤ level ∧ 0 < line
    · refine ⟨" [at " ++ f ++ ":" ++ intStr line ++ "]", ?_,
        Or.inr ⟨f, rfl, h.1, h.2, rfl⟩⟩
      rw [assembleBody_some_pos lg level msg f line bt ms h.1 h.2]
      simp [String.append_assoc]
    · exact ⟨"", by rw [assembleBody_some_neg lg level msg f line bt ms h,
        String.append_empty], Or.inl rfl⟩

theorem level_to_string_loggerAt (t level : Int) :
    (loggerAt t).level_to_string level =
      if level = 1 then "INFO" else if level = 2 then "WARN" else if level = 3 then "ERROR"
      else if level = 0 then "DEBUG" else "UNKNOWN" := by
  simp only [loggerAt, Logger.init, Logger.level_to_string, findLevel]
  split_ifs <;> rfl

theorem level_to_color_loggerAt (t level : Int) :
    (loggerAt t).level_to_color level =
      if level = 1 then "\x1b[0m" else if level = 0 then "\x1b[36m"
      else if level = 2 then "\x1b[33m" else if level = 3 then "\x1b[31m" else "\x1b[0m" := by
  simp only [loggerAt, Logger.init, Logger.level_to_color, findLevel]
  split_ifs <;> rfl

theorem level_to_color_ne_empty (t level : Int) : (loggerAt t).level_to_color level ≠ "" := by
  rw [level_to_color_loggerAt]
  split_ifs <;> decide

theorem escFree_level_name (t level : Int) : escFree ((loggerAt t).level_to_string level) := by
  rw [level_to_string_loggerAt]
  split_ifs <;> decide

theorem loggerAt_log_level (t : Int) : (loggerAt t).log_level_ = t := rfl

/-! ### Claim theorems -/

/-- C1: for every level `L` and current threshold `T`, `log(L, msg)` produces
no output when `L < T`; when `L ≥ T` it produces exactly one
newline-terminated line containing the formatted timestamp, the bracketed
level name, and the message text verbatim. -/
theorem log_filtering_exact_and_single_line (lg : Logger) (level : Int) (msg : String)
    (file : Option String) (line : Int) (bt : Tm) (ms : Nat) :
    (level < lg.log_level_ → (lg.log level msg file line bt ms).2 = []) ∧
    (lg.log_level_ ≤ level →
      ∃ strm s, (lg.log level msg file line bt ms).2 = [(strm, s)] ∧
        HasSubstr s (timestampStr bt ms) ∧
        HasSubstr s ("[" ++ lg.level_to_string level ++ "]") ∧
        HasSubstr s msg ∧
        ∃ u, s = u ++ "\n") := by
  constructor
  · intro h
    rw [log_suppressed _ _ _ _ _ _ _ h]
  · intro hT
    obtain ⟨suf, hbody, _⟩ := assembleBody_decomp lg level msg file line bt ms
    by_cases hw : 2 ≤ level
    · refine ⟨OutStream.stderr,
        lg.level_to_color level ++ Logger.assembleBody lg level msg file line bt ms ++
          "\x1b[0m" ++ "\n", ?_, ?_, ?_, ?_, ?_⟩
      · rw [log_emit_hi _ _ _ _ _ _ _ hT hw]
      · refine hasSubstr_intro _ (lg.level_to_color level) _
          (" [" ++ lg.level_to_string level ++ "] " ++ msg ++ suf ++ "\x1b[0m" ++ "\n") ?_
        rw [hbody]
        simp only [String.append_assoc, -String.reduceAppend]
      · refine hasSubstr_intro _ (lg.level_to_color level ++ timestampStr bt ms ++ " ") _
          (" " ++ msg ++ suf ++ "\x1b[0m" ++ "\n") ?_
        rw [hbody, show (" [" : String) = " " ++ "[" from by decide,
          show ("] " : String) = "]" ++ " " from by decide]
        simp only [String.append_assoc, -String.reduceAppend]
      · refine hasSubstr_intro _
          (lg.level_to_color level ++ timestampStr bt ms ++ " [" ++
            lg.level_to_string level ++ "] ") _ (suf ++ "\x1b[0m" ++ "\n") ?_
        rw [hbody]
        simp only [String.append_assoc, -String.reduceAppend]
      · exact ⟨_, rfl⟩
    · refine ⟨OutStream.stdout,
        Logger.assembleBody lg level msg file line bt ms ++ "\n", ?_, ?_, ?_, ?_, ?_⟩
      · rw [log_emit_lo _ _ _ _ _ _ _ hT (not_le.1 hw)]
      · refine hasSubstr_intro _ "" _
          (" [" ++ lg.level_to_string level ++ "] " ++ msg ++ suf ++ "\n") ?_
        rw [hbody]
        simp only [String.append_assoc, String.empty_append, -String.reduceAppend]
      · refine hasSubstr_intro _ (timestampStr bt ms ++ " ") _ (" " ++ msg ++ suf ++ "\n") ?_
        rw [hbody, show (" [" : String) = " " ++ "[" from by decide,
          show ("] " : String) = "]" ++ " " from by decide]
        simp only [String.append_assoc, -String.reduceAppend]
      · refine hasSubstr_intro _
          (timestampStr bt ms ++ " [" ++ lg.level_to_string level ++ "] ") _ (suf ++ "\n") ?_
        rw [hbody]
        simp only [String.append_assoc, -String.reduceAppend]
      · exact ⟨_, rfl⟩

/-- Closed witness for C1 at the initial state: DEBUG (0) is suppressed by
the default INFO (1) threshold, INFO (1) is emitted as one line. -/
theorem log_filtering_exact_and_single_line_witness :
    (Logger.init.log 0 "x" none 0 sampleTm 42).2 = [] ∧
    (∃ strm s, (Logger.init.log 1 "x" none 0 sampleTm 42).2 = [(strm, s)] ∧
      HasSubstr s (timestampStr sampleTm 42) ∧
      HasSubstr s ("[" ++ Logger.init.level_to_string 1 ++ "]") ∧
      HasSubstr s "x" ∧
      ∃ u, s = u ++ "\n") :=
  ⟨(log_filtering_exact_and_single_line Logger.init 0 "x" none 0 sampleTm 42).1 (by decide),
   (log_filtering_exact_and_single_line Logger.init 1 "x" none 0 sampleTm 42).2 (by decide)⟩

/-- C2: every emitted message at level ≥ WARN is written to the error
stream wrapped in the level's non-empty color-escape prefix and the reset
suffix; every emitted message below WARN goes to standard output with no
wrapping, and (since the logger itself adds no escape bytes) the written
line is escape-free whenever the message is. -/
theorem log_routing_streams_and_color (t level : Int) (msg : String) (file : Option String)
    (line : Int) (bt : Tm) (ms : Nat) (hT : t ≤ level) :
    (2 ≤ level →
      ((loggerAt t).log level msg file line bt ms).2 =
        [(OutStream.stderr, (loggerAt t).level_to_color level ++
          Logger.assembleBody (loggerAt t) level msg file line bt ms ++ "\x1b[0m" ++ "\n")] ∧
      (loggerAt t).level_to_color level ≠ "") ∧
    (level < 2 →
      ((loggerAt t).log level msg file line bt ms).2 =
        [(OutStream.stdout,
          Logger.assembleBody (loggerAt t) level msg file line bt ms ++ "\n")] ∧
      (escFree msg →
        escFree (Logger.assembleBody (loggerAt t) level msg file line bt ms ++ "\n"))) := by
  have hT' : (loggerAt t).log_level_ ≤ level := by rwa [loggerAt_log_level]
  constructor
  · intro hw
    refine ⟨?_, level_to_color_ne_empty t level⟩
    rw [log_emit_hi _ _ _ _ _ _ _ hT' hw]
  · intro hlo
    refine ⟨?_, fun hmsg => ?_⟩
    · rw [log_emit_lo _ _ _ _ _ _ _ hT' hlo]
    · rw [assembleBody_not_warn _ _ _ _ _ _ _ (not_le.2 hlo)]
      simp only [escFree_append]
      exact ⟨⟨⟨⟨⟨escFree_timestampStr bt ms, by decide⟩, escFree_level_name t level⟩,
        by decide⟩, hmsg⟩, by decide⟩

/-- Closed witness for C2: WARN (2) against threshold 1 goes colored to
stderr; INFO (1) against threshold 1 goes bare to stdout, escape-free. -/
theorem log_routing_streams_and_color_witness :
    (((loggerAt 1).log 2 "m" (some "f.cpp") 7 sampleTm 42).2 =
       [(OutStream.stderr, (loggerAt 1).level_to_color 2 ++
         Logger.assembleBody (loggerAt 1) 2 "m" (some "f.cpp") 7 sampleTm 42 ++
         "\x1b[0m" ++ "\n")] ∧
     (loggerAt 1).level_to_color 2 ≠ "") ∧
    (((loggerAt 1).log 1 "m" none 0 sampleTm 42).2 =
       [(OutStream.stdout, Logger.assembleBody (loggerAt 1) 1 "m" none 0 sampleTm 42 ++ "\n")] ∧
     escFree (Logger.assembleBody (loggerAt 1) 1 "m" none 0 sampleTm 42 ++ "\n")) :=
  ⟨(log_routing_streams_and_color 1 2 "m" (some "f.cpp") 7 sampleTm 42 (by decide)).1
      (by decide),
   ⟨((log_routing_streams_and_color 1 1 "m" none 0 sampleTm 42 (by decide)).2 (by decide)).1,
    ((log_routing_streams_and_color 1 1 "m" none 0 sampleTm 42 (by decide)).2 (by decide)).2
      (by decide)⟩⟩

/-- C3: the location suffix ` [at <file>:<line>]` is appended to the
assembled line exactly when level ≥ WARN and a file was supplied and the
line is positive; otherwise the assembled line is just
`<timestamp> [<LEVEL>] <message>`.  The emitted write (when the filter
passes) carries the assembled line intact. -/
theorem location_suffix_condition (lg : Logger) (level : Int) (msg : String)
    (file : Option String) (line : Int) (bt : Tm) (ms : Nat) :
    (∀ f, file = some f → 2 ≤ level → 0 < line →
      Logger.assembleBody lg level msg file line bt ms =
        timestampStr bt ms ++ " [" ++ lg.level_to_string level ++ "] " ++ msg ++
          " [at " ++ f ++ ":" ++ intStr line ++ "]") ∧
    ((file = none ∨ ¬ 2 ≤ level ∨ ¬ 0 < line) →
      Logger.assembleBody lg level msg file line bt ms =
        timestampStr bt ms ++ " [" ++ lg.level_to_string level ++ "] " ++ msg) ∧
    (lg.log_level_ ≤ level →
      ∃ strm a z, (lg.log level msg file line bt ms).2 =
        [(strm, a ++ Logger.assembleBody lg level msg file line bt ms ++ z)]) := by
  refine ⟨?_, ?_, ?_⟩
  · intro f hf h2 hl
    subst hf
    exact assembleBody_some_pos lg level msg f line bt ms h2 hl
  · intro hcase
    cases file with
    | none => exact assembleBody_none lg level msg line bt ms
    | some f =>
      apply assembleBody_some_neg
      rcases hcase with h | h | h
      · exact absurd h (by simp)
      · exact fun hc => h hc.1
      · exact fun hc => h hc.2
  · intro hT
    by_cases hw : 2 ≤ level
    · refine ⟨OutStream.stderr, lg.level_to_color level, "\x1b[0m" ++ "\n", ?_⟩
      rw [log_emit_hi _ _ _ _ _ _ _ hT hw]
      simp only [String.append_assoc, -String.reduceAppend]
    · refine ⟨OutStream.stdout, "", "\n", ?_⟩
      rw [log_emit_lo _ _ _ _ _ _ _ hT (not_le.1 hw)]
      simp only [String.empty_append, -String.reduceAppend]

/-- Closed witness for C3: WARN with `f.ext:42` gets the suffix; WARN with
line 0 does not; an ERROR-free filter pass emits the assembled line. -/
theorem location_suffix_condition_witness :
    Logger.assembleBody Logger.init 2 "m" (some "f.ext") 42 sampleTm 5 =
      timestampStr sampleTm 5 ++ " [" ++ Logger.init.level_to_string 2 ++ "] " ++ "m" ++
        " [at " ++ "f.ext" ++ ":" ++ intStr 42 ++ "]" ∧
    Logger.assembleBody Logger.init 2 "m" (some "f.ext") 0 sampleTm 5 =
      timestampStr sampleTm 5 ++ " [" ++ Logger.init.level_to_string 2 ++ "] " ++ "m" ∧
    (∃ strm a z, (Logger.init.log 2 "m" (some "f.ext") 42 sampleTm 5).2 =
      [(strm, a ++ Logger.assembleBody Logger.init 2 "m" (some "f.ext") 42 sampleTm 5 ++ z)]) :=
  ⟨(location_suffix_condition Logger.init 2 "m" (some "f.ext") 42 sampleTm 5).1 "f.ext"
      rfl (by decide) (by decide),
   (location_suffix_condition Logger.init 2 "m" (some "f.ext") 0 sampleTm 5).2.1
      (Or.inr (Or.inr (by decide))),
   (location_suffix_condition Logger.init 2 "m" (some "f.ext") 42 sampleTm 5).2.2 (by decide)⟩

/-- C4: every emitted line has the fixed assembly order
`<timestamp> [<LEVEL>] <message>` optionally followed by
` [at <file>:<line>]` (then the color wrap and the final newline), and the
timestamp has the `YYYY-MM-DD HH:MM:SS.mmm` local-time shape with exactly
three zero-padded millisecond digits (given the field ranges `localtime`
guarantees). -/
theorem assembly_order_and_timestamp_format (t level : Int) (msg : String)
    (file : Option String) (line : Int) (bt : Tm) (ms : Nat) (hT : t ≤ level)
    (hy1 : 1000 ≤ bt.tm_year + 1900) (hy2 : bt.tm_year + 1900 < 10000)
    (hmo : bt.tm_mon + 1 < 100) (hd : bt.tm_mday < 100) (hh : bt.tm_hour < 100)
    (hmi : bt.tm_min < 100) (hsec : bt.tm_sec < 100) :
    ∃ strm pre suf post,
      ((loggerAt t).log level msg file line bt ms).2 =
        [(strm, pre ++ (timestampStr bt ms ++ " [" ++ (loggerAt t).level_to_string level ++
          "] " ++ msg ++ suf) ++ post ++ "\n")] ∧
      (suf = "" ∨ ∃ f, file = some f ∧ suf = " [at " ++ f ++ ":" ++ intStr line ++ "]") ∧
      (2 ≤ level →
        strm = OutStream.stderr ∧ pre = (loggerAt t).level_to_color level ∧
          post = "\x1b[0m") ∧
      (level < 2 → strm = OutStream.stdout ∧ pre = "" ∧ post = "") ∧
      tsShape (timestampStr bt ms) = true := by
  have hT' : (loggerAt t).log_level_ ≤ level := by rwa [loggerAt_log_level]
  have hts := tsShape_timestampStr bt ms hy1 hy2 hmo hd hh hmi hsec
  obtain ⟨suf, hbody, hsufcase⟩ := assembleBody_decomp (loggerAt t) level msg file line bt ms
  have hsuf' : suf = "" ∨ ∃ f, file = some f ∧
      suf = " [at " ++ f ++ ":" ++ intStr line ++ "]" := by
    rcases hsufcase with h | ⟨f, hf, _, _, hs⟩
    · exact Or.inl h
    · exact Or.inr ⟨f, hf, hs⟩
  by_cases hw : 2 ≤ level
  · refine ⟨OutStream.stderr, (loggerAt t).level_to_color level, suf, "\x1b[0m", ?_, hsuf',
      fun _ => ⟨rfl, rfl, rfl⟩, fun hlo => absurd hlo (not_lt.2 hw), hts⟩
    rw [log_emit_hi _ _ _ _ _ _ _ hT' hw, hbody]
  · refine ⟨OutStream.stdout, "", suf, "", ?_, hsuf',
      fun h2 => absurd h2 hw, fun _ => ⟨rfl, rfl, rfl⟩, hts⟩
    rw [log_emit_lo _ _ _ _ _ _ _ hT' (not_le.1 hw), hbody]
    simp only [String.append_assoc, String.empty_append, -String.reduceAppend]

/-- Closed witness for C4 at WARN against threshold 1 with the sample
wall-clock reading. -/
theorem assembly_order_and_timestamp_format_witness :
    ∃ strm pre suf post,
      ((loggerAt 1).log 2 "m" (some "f.cpp") 7 sampleTm 42).2 =
        [(strm, pre ++ (timestampStr sampleTm 42 ++ " [" ++ (loggerAt 1).level_to_string 2 ++
          "] " ++ "m" ++ suf) ++ post ++ "\n")] ∧
      (suf = "" ∨ ∃ f, (some "f.cpp" : Option String) = some f ∧
        suf = " [at " ++ f ++ ":" ++ intStr 7 ++ "]") ∧
      ((2 : Int) ≤ 2 →
        strm = OutStream.stderr ∧ pre = (loggerAt 1).level_to_color 2 ∧
          post = "\x1b[0m") ∧
      ((2 : Int) < 2 → strm = OutStream.stdout ∧ pre = "" ∧ post = "") ∧
      tsShape (timestampStr sampleTm 42) = true :=
  assembly_order_and_timestamp_format 1 2 "m" (some "f.cpp") 7 sampleTm 42 (by decide)
    (by decide) (by decide) (by decide) (by decide) (by decide) (by decide) (by decide)

/-- C5: for a level value outside {0,1,2,3} the label falls back to
`UNKNOWN`, the color falls back to the reset code `"\x1b[0m"`, and a call
that passes the filter still emits exactly one write (containing
`[UNKNOWN]`) — the operation is total and does not fail. -/
theorem unknown_level_fallback (t level : Int) (msg : String) (file : Option String)
    (line : Int) (bt : Tm) (ms : Nat)
    (h0 : level ≠ 0) (h1 : level ≠ 1) (h2 : level ≠ 2) (h3 : level ≠ 3) :
    (loggerAt t).level_to_string level = "UNKNOWN" ∧
    (loggerAt t).level_to_color level = "\x1b[0m" ∧
    (t ≤ level →
      ∃ strm s, ((loggerAt t).log level msg file line bt ms).2 = [(strm, s)] ∧
        HasSubstr s "[UNKNOWN]") := by
  have hname : (loggerAt t).level_to_string level = "UNKNOWN" := by
    rw [level_to_string_loggerAt]
    simp [h0, h1, h2, h3]
  have hcolor : (loggerAt t).level_to_color level = "\x1b[0m" := by
    rw [level_to_color_loggerAt]
    simp [h0, h1, h2, h3]
  refine ⟨hname, hcolor, fun hT => ?_⟩
  have hT' : (loggerAt t).log_level_ ≤ level := by rwa [loggerAt_log_level]
  obtain ⟨suf, hbody, _⟩ := assembleBody_decomp (loggerAt t) level msg file line bt ms
  rw [hname] at hbody
  by_cases hw : 2 ≤ level
  · refine ⟨OutStream.stderr,
      (loggerAt t).level_to_color level ++
        Logger.assembleBody (loggerAt t) level msg file line bt ms ++ "\x1b[0m" ++ "\n", ?_, ?_⟩
    · rw [log_emit_hi _ _ _ _ _ _ _ hT' hw]
    · refine hasSubstr_intro _ ((loggerAt t).level_to_color level ++ timestampStr bt ms ++ " ")
        _ (" " ++ msg ++ suf ++ "\x1b[0m" ++ "\n") ?_
      rw [hbody, show (" [" : String) = " " ++ "[" from by decide,
        show ("] " : String) = "]" ++ " " from by decide,
        show ("[UNKNOWN]" : String) = "[" ++ "UNKNOWN" ++ "]" from by decide]
      simp only [String.append_assoc, -String.reduceAppend]
  · refine ⟨OutStream.stdout,
      Logger.assembleBody (loggerAt t) level msg file line bt ms ++ "\n", ?_, ?_⟩
    · rw [log_emit_lo _ _ _ _ _ _ _ hT' (not_le.1 hw)]
    · refine hasSubstr_intro _ (timestampStr bt ms ++ " ") _ (" " ++ msg ++ suf ++ "\n") ?_
      rw [hbody, show (" [" : String) = " " ++ "[" from by decide,
        show ("] " : String) = "]" ++ " " from by decide,
        show ("[UNKNOWN]" : String) = "[" ++ "UNKNOWN" ++ "]" from by decide]
      simp only [String.append_assoc, -String.reduceAppend]

/-- Closed witness for C5 at the unmapped level 7. -/
theorem unknown_level_fallback_witness :
    (loggerAt 1).level_to_string 7 = "UNKNOWN" ∧
    (loggerAt 1).level_to_color 7 = "\x1b[0m" ∧
    (∃ strm s, ((loggerAt 1).log 7 "m" none 0 sampleTm 42).2 = [(strm, s)] ∧
      HasSubstr s "[UNKNOWN]") :=
  ⟨(unknown_level_fallback 1 7 "m" none 0 sampleTm 42 (by decide) (by decide) (by decide)
      (by decide)).1,
   (unknown_level_fallback 1 7 "m" none 0 sampleTm 42 (by decide) (by decide) (by decide)
      (by decide)).2.1,
   (unknown_level_fallback 1 7 "m" none 0 sampleTm 42 (by decide) (by decide) (by decide)
      (by decide)).2.2 (by decide)⟩

/-- C6: at startup the threshold is INFO (1): `debug("x")` is silent,
`info("y")` emits the stdout line `<ts> [INFO] y`, and `warn`/`error`
(which pass `__FILE__`/`__LINE__`, with positive line numbers) emit
colored stderr lines with the call-site location suffix. -/
theorem default_threshold_info_scenario (x y z w fW fE : String) (lW lE : Int)
    (hW : 0 < lW) (hE : 0 < lE) (bt : Tm) (ms : Nat) :
    Logger.init.log_level_ = 1 ∧
    (LOG_DEBUG x Logger.init bt ms).2 = [] ∧
    (LOG_INFO y Logger.init bt ms).2 =
      [(OutStream.stdout, timestampStr bt ms ++ " [INFO] " ++ y ++ "\n")] ∧
    (LOG_WARN z fW lW Logger.init bt ms).2 =
      [(OutStream.stderr, "\x1b[33m" ++ (timestampStr bt ms ++ " [WARN] " ++ z ++
        " [at " ++ fW ++ ":" ++ intStr lW ++ "]") ++ "\x1b[0m" ++ "\n")] ∧
    (LOG_ERROR w fE lE Logger.init bt ms).2 =
      [(OutStream.stderr, "\x1b[31m" ++ (timestampStr bt ms ++ " [ERROR] " ++ w ++
        " [at " ++ fE ++ ":" ++ intStr lE ++ "]") ++ "\x1b[0m" ++ "\n")] := by
  refine ⟨rfl, ?_, ?_, ?_, ?_⟩
  · unfold LOG_DEBUG
    rw [log_suppressed _ _ _ _ _ _ _ (by decide)]
  · unfold LOG_INFO
    rw [log_emit_lo _ _ _ _ _ _ _ (by decide) (by decide), assembleBody_none,
      show Logger.init.level_to_string 1 = "INFO" from by decide,
      show (" [INFO] " : String) = " [" ++ "INFO" ++ "] " from by decide]
    simp only [String.append_assoc, -String.reduceAppend]
  · unfold LOG_WARN
    rw [log_emit_hi _ _ _ _ _ _ _ (by decide) (by decide),
      assembleBody_some_pos _ _ _ _ _ _ _ (by decide) hW,
      show Logger.init.level_to_string 2 = "WARN" from by decide,
      show Logger.init.level_to_color 2 = "\x1b[33m" from by decide,
      show (" [WARN] " : String) = " [" ++ "WARN" ++ "] " from by decide]
    simp only [String.append_assoc, -String.reduceAppend]
  · unfold LOG_ERROR
    rw [log_emit_hi _ _ _ _ _ _ _ (by decide) (by decide),
      assembleBody_some_pos _ _ _ _ _ _ _ (by decide) hE,
      show Logger.init.level_to_string 3 = "ERROR" from by decide,
      show Logger.init.level_to_color 3 = "\x1b[31m" from by decide,
      show (" [ERROR] " : String) = " [" ++ "ERROR" ++ "] " from by decide]
    simp only [String.append_assoc, -String.reduceAppend]

/-- Closed witness for C6 with concrete messages and call sites. -/
theorem default_threshold_info_scenario_witness :
    Logger.init.log_level_ = 1 ∧
    (LOG_DEBUG "x" Logger.init sampleTm 42).2 = [] ∧
    (LOG_INFO "y" Logger.init sampleTm 42).2 =
      [(OutStream.stdout, timestampStr sampleTm 42 ++ " [INFO] " ++ "y" ++ "\n")] ∧
    (LOG_WARN "z" "a.cpp" 10 Logger.init sampleTm 42).2 =
      [(OutStream.stderr, "\x1b[33m" ++ (timestampStr sampleTm 42 ++ " [WARN] " ++ "z" ++
        " [at " ++ "a.cpp" ++ ":" ++ intStr 10 ++ "]") ++ "\x1b[0m" ++ "\n")] ∧
    (LOG_ERROR "w" "b.cpp" 20 Logger.init sampleTm 42).2 =
      [(OutStream.stderr, "\x1b[31m" ++ (timestampStr sampleTm 42 ++ " [ERROR] " ++ "w" ++
        " [at " ++ "b.cpp" ++ ":" ++ intStr 20 ++ "]") ++ "\x1b[0m" ++ "\n")] :=
  default_threshold_info_scenario "x" "y" "z" "w" "a.cpp" "b.cpp" 10 20 (by decide) (by decide)
    sampleTm 42

/-- C7: after `set_level(ERROR)` (= 3), a subsequent `warn` call (level 2)
produces no output and leaves the state unchanged, while a subsequent
`error` call (level 3) still produces output. -/
theorem threshold_error_suppresses_warn (lg : Logger) (msgW msgE fW fE : String)
    (lW lE : Int) (bt bt' : Tm) (m m' : Nat) :
    (LOG_WARN msgW fW lW (lg.set_log_level 3) bt m).2 = [] ∧
    (LOG_WARN msgW fW lW (lg.set_log_level 3) bt m).1 = lg.set_log_level 3 ∧
    ∃ s, (LOG_ERROR msgE fE lE (lg.set_log_level 3) bt' m').2 = [(OutStream.stderr, s)] := by
  refine ⟨?_, ?_, ?_⟩
  · unfold LOG_WARN
    rw [log_suppressed _ _ _ _ _ _ _ (show (2 : Int) < (lg.set_log_level 3).log_level_ by
      simp [Logger.set_log_level])]
  · exact log_state _ _ _ _ _ _ _
  · refine ⟨(lg.set_log_level 3).level_to_color 3 ++
      Logger.assembleBody (lg.set_log_level 3) 3 msgE (some fE) lE bt' m' ++
      "\x1b[0m" ++ "\n", ?_⟩
    unfold LOG_ERROR
    rw [log_emit_hi _ _ _ _ _ _ _ (show (lg.set_log_level 3).log_level_ ≤ 3 by
      simp [Logger.set_log_level]) (by norm_num)]

/-- C8: `LOG_CRITICAL(msg)` calls `log` at ERROR (3) with the caller's
file and line and the message prefixed by the bold-red `CRITICAL:` marker
carrying its own color override; when the filter passes, the emitted
stderr line contains the marked message (and the location suffix for a
positive line). -/
theorem critical_logs_error_with_marker (msg f : String) (l : Int) (lg : Logger)
    (bt : Tm) (ms : Nat) :
    LOG_CRITICAL msg f l lg bt ms =
      lg.log 3 ("\x1b[1;31m" ++ "CRITICAL:" ++ "\x1b[0m" ++ " " ++ msg) (some f) l bt ms ∧
    (lg.log_level_ ≤ 3 →
      ∃ s, (LOG_CRITICAL msg f l lg bt ms).2 = [(OutStream.stderr, s)] ∧
        HasSubstr s ("\x1b[1;31mCRITICAL:\x1b[0m " ++ msg) ∧
        (0 < l → HasSubstr s (" [at " ++ f ++ ":" ++ intStr l ++ "]"))) := by
  constructor
  · unfold LOG_CRITICAL
    rw [show ("\x1b[1;31mCRITICAL:\x1b[0m " : String) =
      "\x1b[1;31m" ++ "CRITICAL:" ++ "\x1b[0m" ++ " " from by decide]
  · intro hT
    unfold LOG_CRITICAL
    by_cases hl : 0 < l
    · rw [log_emit_hi _ _ _ _ _ _ _ hT (by decide),
        assembleBody_some_pos _ _ _ _ _ _ _ (by decide) hl]
      refine ⟨_, rfl, ?_, fun _ => ?_⟩
      · refine hasSubstr_intro _
          (lg.level_to_color 3 ++ timestampStr bt ms ++ " [" ++ lg.level_to_string 3 ++ "] ")
          _ (" [at " ++ f ++ ":" ++ intStr l ++ "]" ++ "\x1b[0m" ++ "\n") ?_
        simp only [String.append_assoc, -String.reduceAppend]
      · refine hasSubstr_intro _
          (lg.level_to_color 3 ++ timestampStr bt ms ++ " [" ++ lg.level_to_string 3 ++ "] " ++
            ("\x1b[1;31mCRITICAL:\x1b[0m " ++ msg)) _ ("\x1b[0m" ++ "\n") ?_
        simp only [String.append_assoc, -String.reduceAppend]
    · rw [log_emit_hi _ _ _ _ _ _ _ hT (by decide),
        assembleBody_some_neg _ _ _ _ _ _ _ (fun hc => hl hc.2)]
      refine ⟨_, rfl, ?_, fun hl' => absurd hl' hl⟩
      refine hasSubstr_intro _
        (lg.level_to_color 3 ++ timestampStr bt ms ++ " [" ++ lg.level_to_string 3 ++ "] ")
        _ ("\x1b[0m" ++ "\n") ?_
      simp only [String.append_assoc, -String.reduceAppend]

/-- Closed witness for C8 at the initial state with a positive call line. -/
theorem critical_logs_error_with_marker_witness :
    LOG_CRITICAL "boom" "m.cpp" 9 Logger.init sampleTm 5 =
      Logger.init.log 3 ("\x1b[1;31m" ++ "CRITICAL:" ++ "\x1b[0m" ++ " " ++ "boom")
        (some "m.cpp") 9 sampleTm 5 ∧
    (∃ s, (LOG_CRITICAL "boom" "m.cpp" 9 Logger.init sampleTm 5).2 =
        [(OutStream.stderr, s)] ∧
      HasSubstr s ("\x1b[1;31mCRITICAL:\x1b[0m " ++ "boom") ∧
      ((0 : Int) < 9 → HasSubstr s (" [at " ++ "m.cpp" ++ ":" ++ intStr 9 ++ "]"))) :=
  ⟨(critical_logs_error_with_marker "boom" "m.cpp" 9 Logger.init sampleTm 5).1,
   (critical_logs_error_with_marker "boom" "m.cpp" 9 Logger.init sampleTm 5).2 (by decide)⟩

/-- C9: `LOG_IF(condition, level, msg)` invokes `log` exactly when the
condition is true — when true it is the plain `log` call with no further
gating, when false the state is unchanged and nothing is written. -/
theorem conditional_log_single_boolean_gate (level : Int) (msg : String) (lg : Logger)
    (bt : Tm) (ms : Nat) :
    LOG_IF true level msg lg bt ms = lg.log level msg none 0 bt ms ∧
    LOG_IF false level msg lg bt ms = (lg, []) ∧
    (LOG_IF false level msg lg bt ms).2 = [] :=
  ⟨rfl, rfl, rfl⟩

/-- C10: `log` never changes the logger's state — threshold, name table
and color table are intact after every call (suppressed or emitted); the
threshold is written only by `set_log_level`, which is idempotent. -/
theorem log_stateless_and_set_level_idempotent (lg : Logger) (level l w : Int)
    (msg : String) (file : Option String) (line : Int) (bt : Tm) (ms : Nat) :
    (lg.log level msg file line bt ms).1 = lg ∧
    (lg.log level msg file line bt ms).1.log_level_ = lg.log_level_ ∧
    (lg.log level msg file line bt ms).1.level_strings_ = lg.level_strings_ ∧
    (lg.log level msg file line bt ms).1.colors_ = lg.colors_ ∧
    (lg.set_log_level l).log_level_ = l ∧
    (lg.set_log_level w).set_log_level w = lg.set_log_level w := by
  have h := log_state lg level msg file line bt ms
  exact ⟨h, by rw [h], by rw [h], by rw [h], rfl, rfl⟩
